import Mathlib

/-
Verification of the PostHog SDK test-harness core: the mock ingest server's
recorded-request store (mock_server/state.py), the capture route table and
request pipeline (mock_server/server.py, mock_server/endpoints/capture.py),
the contract executor (contract.py), the contract suite runner
(tests/suites/contract_suite.py) and the assertion actions (actions.py),
shallowly embedded in Lean.

Python conventions used throughout the embedding: fallible code returns
Except (the error constructors mirror the Python exception classes), dicts
are association lists looked up by first key occurrence, bytes are List Nat
with values below 256, and functions of external standard libraries
(gzip, utf-8 codecs, json) are modelled explicitly where noted.
-/

namespace Harness

/-- JSON values as produced by Python's json.loads for the payloads the
harness exercises: numbers are integers (the contracts under test use no
floats). -/
inductive Json where
  | null : Json
  | bool : Bool → Json
  | num : Int → Json
  | str : String → Json
  | arr : List Json → Json
  | obj : List (String × Json) → Json

/-- Python dict lookup on an association list (`d.get(k)`): first matching
key. -/
def dictGet {α : Type} (d : List (String × α)) (k : String) : Option α :=
  match d with
  | [] => none
  | (k1, v) :: rest => if k1 = k then some v else dictGet rest k

/-- The opening-brace character, written numerically. -/
def lbrace : Char := Char.ofNat 123

/-- The closing-brace character, written numerically. -/
def rbrace : Char := Char.ofNat 125

/-- Modelled from the spec: Python's strict utf-8 decoder
(`bytes.decode("utf-8")`, an external standard-library codec). Returns the
decoded character list, or none on any invalid byte sequence (continuation
errors, overlong forms, surrogates, out-of-range code points). -/
def utf8DecodeList : List Nat → Option (List Char)
  | [] => some []
  | b :: rest =>
    if b < 128 then
      (utf8DecodeList rest).map (fun l => Char.ofNat b :: l)
    else if b < 194 then
      none
    else if b < 224 then
      match rest with
      | c1 :: rest2 =>
        if 128 ≤ c1 && c1 < 192 then
          (utf8DecodeList rest2).map
            (fun l => Char.ofNat ((b - 192) * 64 + (c1 - 128)) :: l)
        else none
      | [] => none
    else if b < 240 then
      match rest with
      | c1 :: c2 :: rest2 =>
        let lo1 := if b == 224 then 160 else 128
        let hi1 := if b == 237 then 160 else 192
        if (lo1 ≤ c1 && c1 < hi1) && (128 ≤ c2 && c2 < 192) then
          (utf8DecodeList rest2).map
            (fun l => Char.ofNat ((b - 224) * 4096 + (c1 - 128) * 64 + (c2 - 128)) :: l)
        else none
      | _ => none
    else if b < 245 then
      match rest with
      | c1 :: c2 :: c3 :: rest2 =>
        let lo1 := if b == 240 then 144 else 128
        let hi1 := if b == 244 then 144 else 192
        if (lo1 ≤ c1 && c1 < hi1) && (128 ≤ c2 && c2 < 192) && (128 ≤ c3 && c3 < 192) then
          (utf8DecodeList rest2).map
            (fun l =>
              Char.ofNat ((b - 240) * 262144 + (c1 - 128) * 4096 + (c2 - 128) * 64 + (c3 - 128)) :: l)
        else none
      | _ => none
    else none

/-- utf-8 decoding of a byte list to a Python string. -/
def utf8Decode (bs : List Nat) : Option String :=
  (utf8DecodeList bs).map List.asString

/-- Modelled from the spec: the body of a DEFLATE stream made of stored
(uncompressed) blocks, the fragment of the external zlib format needed
here; anything else fails. -/
def inflateStored : Nat → List Nat → List Nat → Option (List Nat)
  | 0, _, _ => none
  | fuel + 1, acc, bfinal :: l1 :: h1 :: l2 :: h2 :: rest =>
    let len := l1 + 256 * h1
    let nlen := l2 + 256 * h2
    if len + nlen = 65535 && decide (len ≤ rest.length) then
      if bfinal = 1 then some (acc ++ rest.take len)
      else if bfinal = 0 then inflateStored fuel (acc ++ rest.take len) (rest.drop len)
      else none
    else none
  | _, _, _ => none

/-- Modelled from the spec: Python's `gzip.decompress` (external standard
library). A gzip stream opens with the magic bytes 31, 139 and compression
method 8; anything without this header fails, which is the behaviour the
harness relies on for its best-effort decoding. The DEFLATE payload is
modelled for stored blocks; the 8-byte CRC/length trailer is required to be
present but its value is not checked. -/
def gzipDecompress : List Nat → Option (List Nat)
  | 31 :: 139 :: 8 :: 0 :: _t1 :: _t2 :: _t3 :: _t4 :: _xf :: _os :: payload =>
    if payload.length < 8 then none
    else inflateStored (payload.length + 1) [] (payload.dropLast.dropLast.dropLast.dropLast.dropLast.dropLast.dropLast.dropLast)
  | _ => none

/-- Whitespace as skipped by the JSON grammar. -/
def isJsonWs (c : Char) : Bool :=
  c = ' ' || c = Char.ofNat 9 || c = Char.ofNat 10 || c = Char.ofNat 13

/-- Skip JSON whitespace. -/
def skipWs : List Char → List Char
  | [] => []
  | c :: rest => if isJsonWs c then skipWs rest else c :: rest

/-- Decimal digit test. -/
def isDigitCh (c : Char) : Bool := 48 ≤ c.toNat && c.toNat ≤ 57

/-- Read a run of decimal digits, accumulating their value. -/
def readDigits : List Nat → List Char → Nat × List Char
  | acc, c :: rest =>
    if isDigitCh c then readDigits (acc ++ [c.toNat - 48]) rest else (acc.foldl (fun a d => a * 10 + d) 0, c :: rest)
  | acc, [] => (acc.foldl (fun a d => a * 10 + d) 0, [])

/-- Read a JSON string body after the opening quote; escapes are not part
of the modelled fragment (the contract payloads verified here use none). -/
def readStr : List Char → List Char → Option (String × List Char)
  | acc, c :: rest =>
    if c = '"' then some (acc.reverse.asString, rest)
    else if c = '\\' then none
    else readStr (c :: acc) rest
  | _, [] => none

mutual

/-- Modelled from the spec: the value grammar of Python's `json.loads`
(external standard library), for the fragment the harness contracts
exercise: objects, arrays, integer numbers, escape-free strings, true,
false, null. Fuel is structural; `jsonLoads` supplies enough for any
input it is given. -/
def jparseVal : Nat → List Char → Option (Json × List Char)
  | 0, _ => none
  | fuel + 1, cs =>
    match skipWs cs with
    | [] => none
    | c :: rest =>
      if c = lbrace then
        match skipWs rest with
        | d :: r2 =>
          if d = rbrace then some (Json.obj [], r2)
          else (jparseMembers fuel (d :: r2)).map (fun p => (Json.obj p.1, p.2))
        | [] => none
      else if c = '[' then
        match skipWs rest with
        | d :: r2 =>
          if d = ']' then some (Json.arr [], r2)
          else (jparseItems fuel (d :: r2)).map (fun p => (Json.arr p.1, p.2))
        | [] => none
      else if c = '"' then
        (readStr [] rest).map (fun p => (Json.str p.1, p.2))
      else if c = 't' then
        match rest with
        | 'r' :: 'u' :: 'e' :: r2 => some (Json.bool true, r2)
        | _ => none
      else if c = 'f' then
        match rest with
        | 'a' :: 'l' :: 's' :: 'e' :: r2 => some (Json.bool false, r2)
        | _ => none
      else if c = 'n' then
        match rest with
        | 'u' :: 'l' :: 'l' :: r2 => some (Json.null, r2)
        | _ => none
      else if c = '-' then
        match rest with
        | d :: r2 =>
          if isDigitCh d then
            let p := readDigits [] (d :: r2)
            some (Json.num (-(p.1 : Int)), p.2)
          else none
        | [] => none
      else if isDigitCh c then
        let p := readDigits [] (c :: rest)
        some (Json.num (p.1 : Int), p.2)
      else none

/-- Comma-separated JSON array items up to the closing bracket. -/
def jparseItems : Nat → List Char → Option (List Json × List Char)
  | 0, _ => none
  | fuel + 1, cs =>
    match jparseVal fuel cs with
    | some (v, r1) =>
      match skipWs r1 with
      | ',' :: r2 => (jparseItems fuel r2).map (fun p => (v :: p.1, p.2))
      | ']' :: r2 => some ([v], r2)
      | _ => none
    | none => none

/-- Comma-separated JSON object members up to the closing brace. -/
def jparseMembers : Nat → List Char → Option (List (String × Json) × List Char)
  | 0, _ => none
  | fuel + 1, cs =>
    match skipWs cs with
    | '"' :: rest =>
      match readStr [] rest with
      | some (k, r1) =>
        match skipWs r1 with
        | ':' :: r2 =>
          match jparseVal fuel r2 with
          | some (v, r3) =>
            match skipWs r3 with
            | ',' :: r4 => (jparseMembers fuel r4).map (fun p => ((k, v) :: p.1, p.2))
            | e :: r4 => if e = rbrace then some ([(k, v)], r4) else none
            | [] => none
          | none => none
        | _ => none
      | none => none
    | _ => none

end

/-- Modelled from the spec: Python's `json.loads` (external standard
library) on the fragment described at `jparseVal`; fails unless the whole
input is one JSON value surrounded by optional whitespace. -/
def jsonLoads (s : String) : Option Json :=
  match jparseVal (s.length + 1) s.data with
  | some (j, rest) => if (skipWs rest).isEmpty then some j else none
  | none => none

/-- types.py MockResponse: a configured mock server response
(status_code default 200, headers default empty, body default None). -/
structure MockResponse where
  status_code : Nat := 200
  headers : List (String × String) := []
  body : Option String := none
deriving DecidableEq

/-- types.py RecordedRequest: a request recorded by the mock server.
parsed_events is dynamically typed in the source (it receives whatever the
shape detection assigns), hence Option Json here. -/
structure RecordedRequest where
  timestamp_ms : Nat
  method : String
  path : String
  headers : List (String × String)
  query_params : List (String × String)
  body_raw : List Nat
  body_decompressed : Option String
  parsed_events : Option Json
  response_status : Nat
  response_headers : List (String × String)
  response_body : Option String

/-- The per-call inputs of MockServerState.record_request; timestamp_ms is
`int(time.time() * 1000)` at arrival, passed in as `now`. -/
structure ReqIn where
  now : Nat
  method : String
  path : String
  headers : List (String × String)
  query_params : List (String × String)
  body_raw : List Nat

/-- state.py MockServerState: request log, response queue and default
response. The source guards every method body with one mutex
(`self._lock`); each method is therefore one atomic step here. -/
structure MockServerState where
  requests : List RecordedRequest
  response_queue : List MockResponse
  default_response : MockResponse

/-- MockServerState.__init__: empty log, empty queue, default response. -/
def MockServerState.mkInitial : MockServerState :=
  { requests := [], response_queue := [], default_response := {} }

/-- state.py record_request lines 47-58: gzip path when the header dict has
the key "content-encoding" (Python dict lookup, byte-exact) equal to
"gzip"; best-effort, any failure gives None. -/
def decodeBody (headers : List (String × String)) (body_raw : List Nat) : Option String :=
  if dictGet headers "content-encoding" = some "gzip" then
    (gzipDecompress body_raw).bind utf8Decode
  else
    utf8Decode body_raw

/-- state.py record_request lines 71-98: shape detection on the parsed
JSON. A list is taken verbatim; a dict with key "batch" yields
data["batch"] whatever its type (the source tests only key membership); a
dict with key "data" holding a list yields that list; any other dict
yields the singleton [data]; anything else yields None. The debug logging
in the source can raise inside the surrounding try block, but only after
parsed_events is assigned, so the assignment survives. -/
def parseShape (data : Json) : Option Json :=
  match data with
  | Json.arr l => some (Json.arr l)
  | Json.obj kvs =>
    if (dictGet kvs "batch").isSome then dictGet kvs "batch"
    else
      match dictGet kvs "data" with
      | some (Json.arr l) => some (Json.arr l)
      | _ => some (Json.arr [Json.obj kvs])
  | _ => none

/-- state.py record_request lines 60-101: parse events from the decoded
body; `if body_decompressed:` makes None and the empty string skip
parsing, and a json.loads failure leaves parsed_events None. -/
def deriveEvents (body_decompressed : Option String) : Option Json :=
  match body_decompressed with
  | some s =>
    if s.length ≠ 0 then
      match jsonLoads s with
      | some data => parseShape data
      | none => none
    else none
  | none => none

/-- state.py record_request lines 111-124: the RecordedRequest built from
the inputs and the response configuration chosen for this hit. -/
def mkRecorded (i : ReqIn) (cfg : MockResponse) : RecordedRequest :=
  { timestamp_ms := i.now
    method := i.method
    path := i.path
    headers := i.headers
    query_params := i.query_params
    body_raw := i.body_raw
    body_decompressed := decodeBody i.headers i.body_raw
    parsed_events := deriveEvents (decodeBody i.headers i.body_raw)
    response_status := cfg.status_code
    response_headers := cfg.headers
    response_body := cfg.body }

/-- state.py MockServerState.record_request: decode the body, pop the next
programmed response (or use the default when the queue is empty), append
the recorded request to the log and return it. -/
def MockServerState.record_request (s : MockServerState) (i : ReqIn) :
    MockServerState × RecordedRequest :=
  let cfg := s.response_queue.headD s.default_response
  let req := mkRecorded i cfg
  ({ s with requests := s.requests ++ [req], response_queue := s.response_queue.tail }, req)

/-- state.py get_requests: snapshot copy of the log. -/
def MockServerState.get_requests (s : MockServerState) : List RecordedRequest :=
  s.requests

/-- state.py clear_requests. -/
def MockServerState.clear_requests (s : MockServerState) : MockServerState :=
  { s with requests := [] }

/-- state.py set_response_queue: replaces any previous queue. -/
def MockServerState.set_response_queue (s : MockServerState) (responses : List MockResponse) :
    MockServerState :=
  { s with response_queue := responses }

/-- state.py set_default_response. -/
def MockServerState.set_default_response (s : MockServerState) (r : MockResponse) :
    MockServerState :=
  { s with default_response := r }

/-- state.py reset: clears the log, empties the queue and restores the
default response, all inside one `with self._lock:` block. -/
def MockServerState.reset (_s : MockServerState) : MockServerState :=
  { requests := [], response_queue := [], default_response := {} }

/-- A sequence of record_request calls with no intervening programming. -/
def recordMany : MockServerState → List ReqIn → MockServerState
  | s, [] => s
  | s, i :: rest => recordMany (s.record_request i).1 rest

/-- Python exception kinds raised by the embedded code paths. -/
inductive PyErr where
  | assertionError : String → PyErr
  | valueError : String → PyErr
  | keyError : String → PyErr
  | typeError : String → PyErr
  | attributeError : String → PyErr
  | jsonDecodeError : String → PyErr
deriving DecidableEq

/-- endpoints/capture.py CaptureEndpoint.routes: the registered
(path, method) pairs, in source order. -/
def captureRoutes : List (String × String) :=
  [("/batch", "POST"), ("/batch/", "POST"),
   ("/i/v0/e", "POST"), ("/i/v0/e/", "POST"),
   ("/i/v0/e", "GET"), ("/i/v0/e/", "GET"),
   ("/e", "POST"), ("/e/", "POST"),
   ("/e", "GET"), ("/e/", "GET"),
   ("/capture", "POST"), ("/capture/", "POST"),
   ("/capture", "GET"), ("/capture/", "GET"),
   ("/track", "POST"), ("/track/", "POST"),
   ("/track", "GET"), ("/track/", "GET")]

/-- endpoints/capture.py CaptureEndpoint.handle_request: 204 empty body for
beacon=1, otherwise 200 with status 1. -/
def handleCapture (query_params : List (String × String)) :
    Json × Nat × List (String × String) :=
  if dictGet query_params "beacon" = some "1" then (Json.obj [], 204, [])
  else (Json.obj [("status", Json.num 1)], 200, [])

/-- server.py _setup_routes wrapper around every capture route: record the
request into the store first; on a non-200 configured response run
`json.loads(recorded.response_body)` (raising on a malformed body) or fall
back to the generic error body, then answer with the configured
status and headers; on 200 defer to the endpoint handler. The store
mutation survives a raise, so the new state is returned alongside the
Except outcome. -/
def captureView (s : MockServerState) (i : ReqIn) :
    MockServerState × Except PyErr (Json × Nat × List (String × String)) :=
  let recorded := (s.record_request i).2
  let s1 := (s.record_request i).1
  if recorded.response_status ≠ 200 then
    match recorded.response_body with
    | some b =>
      if b.length ≠ 0 then
        match jsonLoads b with
        | some j => (s1, Except.ok (j, recorded.response_status, recorded.response_headers))
        | none => (s1, Except.error (PyErr.jsonDecodeError b))
      else
        (s1, Except.ok (Json.obj [("error", Json.str "Server error")],
          recorded.response_status, recorded.response_headers))
    | none =>
      (s1, Except.ok (Json.obj [("error", Json.str "Server error")],
        recorded.response_status, recorded.response_headers))
  else
    (s1, Except.ok (handleCapture i.query_params))

/-- Python truthiness of a JSON value (bool(x)). -/
def Json.truthy : Json → Bool
  | Json.null => false
  | Json.bool b => b
  | Json.num n => n ≠ 0
  | Json.str s => s.length ≠ 0
  | Json.arr l => !l.isEmpty
  | Json.obj l => !l.isEmpty

/-- Python truthiness of an optional JSON value (None is falsy). -/
def optTruthy : Option Json → Bool
  | none => false
  | some j => j.truthy

mutual

/-- Python `==` on JSON values (used by the assertion actions). Modelled
structurally; the cross-type numeric equalities of Python (True == 1) and
order-insensitive dict comparison are outside the fragment the contracts
exercise. -/
def jeqb : Json → Json → Bool
  | Json.null, Json.null => true
  | Json.bool a, Json.bool b => a == b
  | Json.num a, Json.num b => a == b
  | Json.str a, Json.str b => a == b
  | Json.arr a, Json.arr b => jeqbArr a b
  | Json.obj a, Json.obj b => jeqbObj a b
  | _, _ => false

/-- Elementwise Python `==` on JSON lists. -/
def jeqbArr : List Json → List Json → Bool
  | [], [] => true
  | a :: arest, b :: brest => jeqb a b && jeqbArr arest brest
  | _, _ => false

/-- Pairwise Python `==` on JSON object entries. -/
def jeqbObj : List (String × Json) → List (String × Json) → Bool
  | [], [] => true
  | (k1, v1) :: r1, (k2, v2) :: r2 => k1 == k2 && jeqb v1 v2 && jeqbObj r1 r2
  | _, _ => false

end

/-- Python `int != json_value` as in `actual != expected` of
assert_request_count, where actual is `len(requests)`. -/
def pyIntNeq (actual : Nat) : Json → Bool
  | Json.num m => m ≠ (actual : Int)
  | Json.bool b => (if b then (1 : Int) else 0) ≠ (actual : Int)
  | _ => true

/-- Python str() of a parameter value as interpolated into the assertion
messages; the contract parameters interpolated this way are ints and
strings. -/
def jsonArgStr : Json → String
  | Json.num n => toString n
  | Json.str s => s
  | Json.bool b => if b then "True" else "False"
  | Json.null => "None"
  | _ => ""

/-- actions.py AssertRequestCountAction.execute: strict equality between
the recorded request count and params["expected"]; KeyError when the
parameter is missing (caught and rewrapped by the executor). -/
def assertRequestCountExec (params : List (String × Json))
    (requests : List RecordedRequest) : Except PyErr Unit :=
  match dictGet params "expected" with
  | none => Except.error (PyErr.keyError "expected")
  | some expected =>
    let actual := requests.length
    if pyIntNeq actual expected then
      Except.error (PyErr.assertionError
        ("Expected " ++ jsonArgStr expected ++ " requests, got " ++ toString actual))
    else Except.ok ()

/-- actions.py AssertCaptureFailsAction.execute: a no-op marker; its own
comment says the test framework will catch the exception from the previous
action. -/
def assertCaptureFailsExec (_params : List (String × Json))
    (_requests : List RecordedRequest) : Except PyErr Unit :=
  Except.ok ()

/-- Whether the first character list leads the second. -/
def leadsWith : List Char → List Char → Bool
  | [], _ => true
  | _ :: _, [] => false
  | a :: arest, b :: brest => a == b && leadsWith arest brest

/-- Whether the first character list occurs contiguously in the second
(Python substring containment). -/
def subListOf (n : List Char) : List Char → Bool
  | [] => n.isEmpty
  | c :: t => leadsWith n (c :: t) || subListOf n t

/-- Membership lookup `properties.get(prop_name)` when properties is a
dict: JSON object keys are strings, so a non-string name is never found. -/
def pyDictLookup (kvs : List (String × Json)) : Json → Option Json
  | Json.str k => dictGet kvs k
  | _ => none

/-- Python `name in properties` / `properties.get(name)` checks of
AssertEventPropertyAction over an arbitrary properties value: a dict tests
key membership, a string tests substring containment, a list tests
membership, anything else raises TypeError. -/
def pyContains (container : Json) (name : Json) : Except PyErr Bool :=
  match container with
  | Json.obj kvs => Except.ok (pyDictLookup kvs name).isSome
  | Json.str s =>
    match name with
    | Json.str n => Except.ok (subListOf n.data s.data)
    | _ => Except.error (PyErr.typeError "in <string> requires string as left operand")
  | Json.arr l => Except.ok (l.any (fun x => jeqb x name))
  | _ => Except.error (PyErr.typeError "argument is not iterable")

/-- actions.py AssertEventPropertyAction.execute (lines 297-318): read
requests[0].parsed_events[0], its properties (default an empty dict), the
property name, then run the exists check when params["exists"] is truthy
and the equality check when the key "expected" is present. Non-dict first
events make `event.get` raise AttributeError; truthy non-list
parsed_events make the [0] subscript raise. -/
def assertEventPropertyExec (params : List (String × Json))
    (requests : List RecordedRequest) : Except PyErr Unit :=
  match requests with
  | [] => Except.error (PyErr.assertionError "No events found")
  | r :: _ =>
    if !optTruthy r.parsed_events then Except.error (PyErr.assertionError "No events found")
    else
      match r.parsed_events with
      | some (Json.arr (e :: _)) =>
        match e with
        | Json.obj ekvs =>
          let properties := (dictGet ekvs "properties").getD (Json.obj [])
          match dictGet params "property" with
          | none => Except.error (PyErr.keyError "property")
          | some prop_name =>
            let existsCheck : Except PyErr Unit :=
              if optTruthy (dictGet params "exists") then
                match pyContains properties prop_name with
                | Except.error err => Except.error err
                | Except.ok true => Except.ok ()
                | Except.ok false =>
                  Except.error (PyErr.assertionError
                    ("Event missing " ++ jsonArgStr prop_name ++ " property"))
              else Except.ok ()
            match existsCheck with
            | Except.error err => Except.error err
            | Except.ok _ =>
              if (dictGet params "expected").isSome then
                match properties with
                | Json.obj pkvs =>
                  let actual := (pyDictLookup pkvs prop_name).getD Json.null
                  let expected := (dictGet params "expected").getD Json.null
                  if jeqb actual expected then Except.ok ()
                  else
                    Except.error (PyErr.assertionError
                      ("Expected " ++ jsonArgStr prop_name ++ " mismatch"))
                | _ => Except.error (PyErr.attributeError "object has no attribute get")
              else Except.ok ()
        | _ => Except.error (PyErr.attributeError "object has no attribute get")
      | some (Json.obj _) => Except.error (PyErr.keyError "0")
      | some (Json.str _) => Except.error (PyErr.attributeError "object has no attribute get")
      | _ => Except.error (PyErr.typeError "object is not subscriptable")

/-- One contract step: an action name and its parameter bag (absent params
become the empty map in contract.py run_test). -/
structure Step where
  action : String
  params : List (String × Json)

/-- contract.py execute_action for the registry fragment the executor
claims exercise (the full registry of actions.py get_all_actions is
discovered by reflection; the actions appearing in these theorems are
embedded above): ValueError on an unknown action name. -/
def executeAction (name : String) (params : List (String × Json))
    (requests : List RecordedRequest) : Except PyErr Unit :=
  if name = "assert_request_count" then assertRequestCountExec params requests
  else if name = "assert_capture_fails" then assertCaptureFailsExec params requests
  else if name = "assert_event_property" then assertEventPropertyExec params requests
  else Except.error (PyErr.valueError ("Unknown action: " ++ name))

/-- contract.py run_test step loop: execute each step in order; a KeyError
from an action is rewrapped as a ValueError naming the parameter; any
raise ends the loop — there is no lookahead at the following step. The
embedded actions only read the store, so the snapshot is constant. -/
def runSteps (requests : List RecordedRequest) : List Step → Except PyErr Unit
  | [] => Except.ok ()
  | st :: rest =>
    match executeAction st.action st.params requests with
    | Except.ok _ => runSteps requests rest
    | Except.error (PyErr.keyError k) =>
      Except.error (PyErr.valueError
        ("Missing required parameter " ++ k ++ " for action " ++ st.action))
    | Except.error e => Except.error e

/-- contract.py run_test: full reset via the test context first (the mock
store becomes empty; the adapter side is outside the store model), then
the step loop. -/
def runTest (steps : List Step) (s : MockServerState) : Except PyErr Unit :=
  runSteps (s.reset).requests steps

/-- One test definition of the contract document; sdk_types is none when
the key is absent. -/
structure TestDef where
  name : String
  sdk_types : Option (List String)
  steps : List Step

/-- types.py TestResult. -/
structure TestResult where
  name : String
  passed : Bool
  duration_ms : Nat
  message : Option String

/-- types.py TestSuiteResult. -/
structure TestSuiteResult where
  name : String
  results : List TestResult

/-- types.py TestSuiteResult.total. -/
def TestSuiteResult.total (r : TestSuiteResult) : Nat := r.results.length

/-- types.py TestSuiteResult.passed. -/
def TestSuiteResult.passedCount (r : TestSuiteResult) : Nat :=
  (r.results.filter (fun t => t.passed)).length

/-- types.py TestSuiteResult.failed. -/
def TestSuiteResult.failedCount (r : TestSuiteResult) : Nat :=
  (r.results.filter (fun t => !t.passed)).length

/-- contract_suite.py run lines 48-51:
`test_sdk_types = test_def.get("sdk_types", [])` followed by
`if test_sdk_types and sdk_type not in test_sdk_types: continue` — the
skip fires only when the list is truthy, i.e. non-empty. -/
def shouldSkip (td : TestDef) (sdk_type : String) : Bool :=
  let test_sdk_types := td.sdk_types.getD []
  !test_sdk_types.isEmpty && !test_sdk_types.contains sdk_type

/-- contract_suite.py ContractTestSuite.run: walk categories and tests in
order, skip by SDK type, and append one TestResult per executed test.
`runOne` stands for the awaited `self._run_contract_test`, which always
returns a TestResult (its try/except converts any raise into a failed
result). -/
def suiteRun (suite_name : String) (categories : List (String × List TestDef))
    (sdk_type : String) (runOne : String → TestDef → TestResult) : TestSuiteResult :=
  { name := suite_name
    results :=
      (categories.map (fun cat =>
        ((cat.2.filter (fun td => !shouldSkip td sdk_type)).map
          (fun td => runOne (cat.1 ++ "." ++ td.name) td)))).flatten }

/-- A YAML node as it sits in a contract file before construction:
scalars, !include directives, sequences and mappings. -/
inductive YSrc where
  | scalar : String → YSrc
  | incl : String → YSrc
  | seq : List YSrc → YSrc
  | ymap : List (String × YSrc) → YSrc

/-- A constructed YAML value (all includes resolved). -/
inductive YVal where
  | scalar : String → YVal
  | seq : List YVal → YVal
  | ymap : List (String × YVal) → YVal

/-- How loading a contract can fail. recursionLimit is the model's fuel
running out: the source recursion has no cycle detection, so on a cyclic
include it never returns at any depth (Python dies with RecursionError). -/
inductive LoadErr where
  | fileNotFound : LoadErr
  | recursionLimit : LoadErr
deriving DecidableEq

/-- Split a character list on slashes. -/
def splitSlash : List Char → List (List Char)
  | [] => [[]]
  | c :: rest =>
    if c = '/' then [] :: splitSlash rest
    else
      match splitSlash rest with
      | h :: t => (c :: h) :: t
      | [] => [[c]]

/-- Rejoin path components with slashes. -/
def joinSlash : List (List Char) → List Char
  | [] => []
  | [x] => x
  | x :: y :: t => x ++ '/' :: joinSlash (y :: t)

/-- pathlib `Path(p).parent` for the POSIX paths the loader handles. -/
def pathParent (p : String) : String :=
  let parts := splitSlash p.data
  if parts.length ≤ 1 then "." else (joinSlash parts.dropLast).asString

/-- pathlib `root / rel` (Path(".") / x is x). -/
def pathJoin (root rel : String) : String :=
  if root = "." then rel else root ++ "/" ++ rel

mutual

/-- contract.py include_constructor and the yaml construction it recurses
through: a scalar constructs itself; `!include rel` resolves rel against
the including document's directory, opens that file and loads it with the
same loader — with no record of visited paths; sequences and mappings
construct their children. Fuel bounds the construction depth; the source
has no such bound. -/
def yconstruct (fs : List (String × YSrc)) : Nat → String → YSrc → Except LoadErr YVal
  | 0, _, _ => Except.error LoadErr.recursionLimit
  | fuel + 1, root, src =>
    match src with
    | YSrc.scalar s => Except.ok (YVal.scalar s)
    | YSrc.incl rel =>
      let filepath := pathJoin root rel
      match dictGet fs filepath with
      | none => Except.error LoadErr.fileNotFound
      | some doc => yconstruct fs fuel (pathParent filepath) doc
    | YSrc.seq l => (yconstructSeq fs fuel root l).map YVal.seq
    | YSrc.ymap l => (yconstructMap fs fuel root l).map YVal.ymap

/-- Construct each child of a sequence node. -/
def yconstructSeq (fs : List (String × YSrc)) : Nat → String → List YSrc →
    Except LoadErr (List YVal)
  | 0, _, _ => Except.error LoadErr.recursionLimit
  | _ + 1, _, [] => Except.ok []
  | fuel + 1, root, d :: ds =>
    match yconstruct fs fuel root d with
    | Except.error e => Except.error e
    | Except.ok v =>
      match yconstructSeq fs fuel root ds with
      | Except.error e => Except.error e
      | Except.ok vs => Except.ok (v :: vs)

/-- Construct each value of a mapping node. -/
def yconstructMap (fs : List (String × YSrc)) : Nat → String → List (String × YSrc) →
    Except LoadErr (List (String × YVal))
  | 0, _, _ => Except.error LoadErr.recursionLimit
  | _ + 1, _, [] => Except.ok []
  | fuel + 1, root, (k, d) :: ds =>
    match yconstruct fs fuel root d with
    | Except.error e => Except.error e
    | Except.ok v =>
      match yconstructMap fs fuel root ds with
      | Except.error e => Except.error e
      | Except.ok vs => Except.ok ((k, v) :: vs)

end

/-- contract.py _load_contract: open the contract file and yaml.load it
with the IncludeLoader, whose _root is the file's parent directory. `fs`
maps each resolvable path to its parsed document. -/
def yamlLoad (fs : List (String × YSrc)) (fuel : Nat) (path : String) :
    Except LoadErr YVal :=
  match dictGet fs path with
  | none => Except.error LoadErr.fileNotFound
  | some doc => yconstruct fs fuel (pathParent path) doc

/-
Claim-side definitions: these follow the words of the spec sentences under
verification (not the source), to be compared against the embedded code.
-/

/-- Claim C2 as stated: array verbatim; object with key "batch" whose
value is an array gives that array, batch before data; object with key
"data" whose value is an array gives that array; any other object gives
the singleton list holding it; anything else gives no events. -/
def claimShape (data : Json) : Option Json :=
  match data with
  | Json.arr l => some (Json.arr l)
  | Json.obj kvs =>
    match dictGet kvs "batch" with
    | some (Json.arr l) => some (Json.arr l)
    | _ =>
      match dictGet kvs "data" with
      | some (Json.arr l) => some (Json.arr l)
      | _ => some (Json.arr [Json.obj kvs])
  | _ => none

/-- Claim C2 amended: identical to the claim except that an object with
key "batch" yields data["batch"] verbatim whatever its type, and this
takes precedence over the "data" rule. Worded from the amendment, to be
proved equal to what the code computes. -/
def amendedShape (data : Json) : Option Json :=
  match data with
  | Json.arr l => some (Json.arr l)
  | Json.obj kvs =>
    match dictGet kvs "batch" with
    | some v => some v
    | none =>
      match dictGet kvs "data" with
      | some (Json.arr l) => some (Json.arr l)
      | _ => some (Json.arr [Json.obj kvs])
  | _ => none

/-- ASCII lower-casing of a character (header names are ASCII). -/
def asciiLowerChar (c : Char) : Char :=
  if 65 ≤ c.toNat && c.toNat ≤ 90 then Char.ofNat (c.toNat + 32) else c

/-- ASCII lower-casing of a string. -/
def asciiLower (s : String) : String :=
  (s.data.map asciiLowerChar).asString

/-- Case-insensitive header lookup, as claim C3 words the gzip test. -/
def dictGetCI (headers : List (String × String)) (k : String) : Option String :=
  match headers with
  | [] => none
  | (k1, v) :: rest => if asciiLower k1 = asciiLower k then some v else dictGetCI rest k

/-- Claim C3 as stated: gzip-then-utf-8 decoding whenever the headers hold
a key case-insensitively equal to "content-encoding" with value "gzip",
plain utf-8 decoding otherwise, absent on failure. -/
def claimBodyDecode (headers : List (String × String)) (body_raw : List Nat) :
    Option String :=
  if dictGetCI headers "content-encoding" = some "gzip" then
    (gzipDecompress body_raw).bind utf8Decode
  else
    utf8Decode body_raw

/-- Claim C7's alias paths: the five capture aliases, each with and
without a trailing slash. -/
def claimAliasPaths : List String :=
  ["/batch", "/batch/", "/i/v0/e", "/i/v0/e/", "/e", "/e/",
   "/capture", "/capture/", "/track", "/track/"]

/-- Claim C9 as stated: skip whenever sdk_types is present and its list
does not contain the active tag (in particular for a present empty
list). -/
def claimSkip (td : TestDef) (sdk_type : String) : Bool :=
  match td.sdk_types with
  | some l => !l.contains sdk_type
  | none => false

/-- Claim C9 amended: skip only when sdk_types is present with a non-empty
list that does not contain the active tag; a present empty list behaves
like an absent key. -/
def amendedSkip (td : TestDef) (sdk_type : String) : Bool :=
  match td.sdk_types with
  | some (t :: ts) => !(t :: ts).contains sdk_type
  | _ => false

/-- The suite runner as the amended claim C9 describes it, differing from
the embedded code only in the wording of the skip rule. -/
def amendedSuiteRun (suite_name : String) (categories : List (String × List TestDef))
    (sdk_type : String) (runOne : String → TestDef → TestResult) : TestSuiteResult :=
  { name := suite_name
    results :=
      (categories.map (fun cat =>
        ((cat.2.filter (fun td => !amendedSkip td sdk_type)).map
          (fun td => runOne (cat.1 ++ "." ++ td.name) td)))).flatten }

/-- The response triple a recorded request reports back. -/
def respTriple (r : RecordedRequest) : Nat × List (String × String) × Option String :=
  (r.response_status, r.response_headers, r.response_body)

/-- The triple a programmed MockResponse prescribes. -/
def mockTriple (m : MockResponse) : Nat × List (String × String) × Option String :=
  (m.status_code, m.headers, m.body)

/-- ASCII bytes of a string, for concrete test payloads (all are ASCII). -/
def asciiBytes (s : String) : List Nat := s.data.map Char.toNat

/-- A placeholder RecordedRequest for list getD defaults in statements. -/
def dummyRecorded : RecordedRequest :=
  { timestamp_ms := 0, method := "", path := "", headers := [], query_params := []
    body_raw := [], body_decompressed := none, parsed_events := none
    response_status := 0, response_headers := [], response_body := none }

/-- The recorded requests a record sequence appends: the ith call is
answered from the ith queue entry, falling back to the default. -/
def newRecords (q : List MockResponse) (d : MockResponse) : List ReqIn → List RecordedRequest
  | [] => []
  | i :: rest => mkRecorded i (q.headD d) :: newRecords q.tail d rest

/-- Concrete witness data for the FIFO claim: two programmed responses. -/
def wR : List MockResponse :=
  [{ status_code := 500, headers := [], body := none },
   { status_code := 503, headers := [("Retry-After", "1")], body := some "busy" }]

/-- Three concrete record_request inputs with empty bodies. -/
def wInputs : List ReqIn :=
  [⟨1, "POST", "/batch", [], [], []⟩,
   ⟨2, "POST", "/batch", [], [], []⟩,
   ⟨3, "POST", "/batch", [], [], []⟩]

/-- The programmed response whose body is not JSON, for claim C4. -/
def malformedQueue : List MockResponse :=
  [{ status_code := 500, headers := [("X-Kind", "programmed")], body := some "oops" }]

/-- A plain capture request hitting the view, for claim C4. -/
def plainCaptureReq : ReqIn := ⟨0, "POST", "/batch", [], [], []⟩

/-- The one-file cyclic include: d/a.yaml includes a.yaml, which resolves
back to d/a.yaml. -/
def cycFs : List (String × YSrc) := [("d/a.yaml", YSrc.incl "a.yaml")]

/-- The suite runner as claim C9 words the skip rule (any present
sdk_types list that lacks the tag skips, the empty list included). -/
def claimSuiteRun (suite_name : String) (categories : List (String × List TestDef))
    (sdk_type : String) (runOne : String → TestDef → TestResult) : TestSuiteResult :=
  { name := suite_name
    results :=
      (categories.map (fun cat =>
        ((cat.2.filter (fun td => !claimSkip td sdk_type)).map
          (fun td => runOne (cat.1 ++ "." ++ td.name) td)))).flatten }

/-- A one-test suite whose test carries sdk_types as a present empty
list. -/
def emptyTagsCats : List (String × List TestDef) :=
  [("cat", [{ name := "t", sdk_types := some [], steps := [] }])]

/-- A concrete stand-in for _run_contract_test in the counterexample. -/
def constRunOne : String → TestDef → TestResult :=
  fun n _ => { name := n, passed := true, duration_ms := 0, message := none }

/-- The store record whose first parsed event is a bare number, for the
C10 counterexample. -/
def numberEventRecorded : RecordedRequest :=
  { dummyRecorded with parsed_events := some (Json.arr [Json.num 5]) }

/-- The store record used by the C10 witness. -/
def objectEventRecorded : RecordedRequest :=
  { dummyRecorded with
    parsed_events := some (Json.arr [Json.obj [("event", Json.str "login")]]) }

/-
Helper lemmas shared by the claim theorems, then the claim theorems.
-/

theorem newRecords_length (q : List MockResponse) (d : MockResponse) :
    ∀ inputs : List ReqIn, (newRecords q d inputs).length = inputs.length
  | [] => rfl
  | _ :: rest => by simp [newRecords, newRecords_length _ _ rest]

theorem recordMany_default : ∀ (inputs : List ReqIn) (s : MockServerState),
    (recordMany s inputs).default_response = s.default_response
  | [], _ => rfl
  | i :: rest, s => recordMany_default rest (s.record_request i).1

theorem recordMany_queue : ∀ (inputs : List ReqIn) (s : MockServerState),
    (recordMany s inputs).response_queue = s.response_queue.drop inputs.length
  | [], s => rfl
  | i :: rest, s => by
    have ih := recordMany_queue rest (s.record_request i).1
    simp only [recordMany] at ih ⊢
    rw [ih]
    show s.response_queue.tail.drop rest.length = _
    rw [← List.drop_one, List.drop_drop]
    simp [Nat.add_comm]

theorem recordMany_requests : ∀ (inputs : List ReqIn) (s : MockServerState),
    (recordMany s inputs).requests =
      s.requests ++ newRecords s.response_queue s.default_response inputs
  | [], s => by simp [recordMany, newRecords]
  | i :: rest, s => by
    have ih := recordMany_requests rest (s.record_request i).1
    simp only [recordMany] at ih ⊢
    rw [ih]
    show (s.requests ++ [mkRecorded i (s.response_queue.headD s.default_response)]) ++
        newRecords s.response_queue.tail s.default_response rest = _
    rw [List.append_assoc]
    rfl

theorem getD_tail {α : Type} (l : List α) (k : Nat) (d : α) :
    l.tail.getD k d = l.getD (k + 1) d := by
  cases l <;> simp [List.getD]

theorem headD_eq_getD_zero {α : Type} (l : List α) (d : α) :
    l.headD d = l.getD 0 d := by
  cases l <;> simp

theorem newRecords_getD : ∀ (inputs : List ReqIn) (q : List MockResponse)
    (d : MockResponse) (k : Nat), k < inputs.length →
    respTriple ((newRecords q d inputs).getD k dummyRecorded) = mockTriple (q.getD k d)
  | [], _, _, k, hk => absurd hk (by simp)
  | i :: rest, q, d, 0, _ => by
    simp only [newRecords, List.getD_cons_zero]
    have h : q.headD d = q.getD 0 d := by cases q <;> rfl
    rw [h]
    rfl
  | i :: rest, q, d, k + 1, hk => by
    simp only [newRecords, List.getD_cons_succ]
    rw [newRecords_getD rest q.tail d k (by simpa using hk)]
    rw [getD_tail]

/-- C1. The response programme is FIFO: install R via set_response_queue
(which replaces any previous queue), run any sequence of record_request
calls with no intervening programming; the kth recorded request carries
the kth programmed triple while k is within R, and the current default
response after that; each call consumes exactly one queue entry. -/
theorem response_programme_fifo (s : MockServerState) (R : List MockResponse)
    (inputs : List ReqIn) (k : Nat) (hk : k < inputs.length) :
    (s.set_response_queue R).response_queue = R
    ∧ (recordMany (s.set_response_queue R) inputs).requests.length =
        s.requests.length + inputs.length
    ∧ respTriple ((recordMany (s.set_response_queue R) inputs).requests.getD
        (s.requests.length + k) dummyRecorded) = mockTriple (R.getD k s.default_response)
    ∧ (recordMany (s.set_response_queue R) inputs).response_queue = R.drop inputs.length := by
  have hq : (s.set_response_queue R).response_queue = R := rfl
  have hreq : (s.set_response_queue R).requests = s.requests := rfl
  have hd : (s.set_response_queue R).default_response = s.default_response := rfl
  refine ⟨rfl, ?_, ?_, ?_⟩
  · rw [recordMany_requests, hq, hreq, hd]
    simp [newRecords_length]
  · rw [recordMany_requests, hq, hreq, hd]
    rw [List.getD_append_right s.requests _ dummyRecorded _ (Nat.le_add_right _ _)]
    rw [Nat.add_sub_cancel_left]
    exact newRecords_getD inputs R s.default_response k hk
  · rw [recordMany_queue, hq]

/-- Witness for C1: the third request (k = 2, beyond the two programmed
entries) is answered with the default 200 response. -/
theorem response_programme_fifo_witness :
    2 < wInputs.length
    ∧ ((MockServerState.mkInitial.set_response_queue wR).response_queue = wR
      ∧ (recordMany (MockServerState.mkInitial.set_response_queue wR) wInputs).requests.length =
          MockServerState.mkInitial.requests.length + wInputs.length
      ∧ respTriple ((recordMany (MockServerState.mkInitial.set_response_queue wR) wInputs).requests.getD
          (MockServerState.mkInitial.requests.length + 2) dummyRecorded) =
          mockTriple (wR.getD 2 MockServerState.mkInitial.default_response)
      ∧ (recordMany (MockServerState.mkInitial.set_response_queue wR) wInputs).response_queue =
          wR.drop wInputs.length) :=
  ⟨by decide, response_programme_fifo MockServerState.mkInitial wR wInputs 2 (by decide)⟩

/-- C6. Reset isolation: after reset() the log is empty, the response
queue is empty, the default response is back to status 200 with empty
headers and no body, and the next recorded request is answered with that
default. The source performs the three effects inside one
`with self._lock:` block, embedded here as the single atomic step
MockServerState.reset. -/
theorem reset_isolation (s : MockServerState) (i : ReqIn) :
    (s.reset).get_requests = []
    ∧ (s.reset).response_queue = []
    ∧ (s.reset).default_response = { status_code := 200, headers := [], body := none }
    ∧ respTriple ((s.reset).record_request i).2 = (200, [], none) :=
  ⟨rfl, rfl, rfl, rfl⟩

/-- C3 counterexample: the claim reads the gzip test case-insensitively,
but state.py line 49 does `headers.get("content-encoding") == "gzip"`, an
exact dict lookup. With the header spelled "Content-Encoding" (as the
Flask layer in server.py delivers it) and the ASCII body "hello", the
claim prescribes the gzip path (which fails, leaving the field absent),
while the code takes the plain path and decodes "hello". -/
theorem gzip_case_sensitivity_counterexample :
    dictGetCI [("Content-Encoding", "gzip")] "content-encoding" = some "gzip"
    ∧ (MockServerState.mkInitial.record_request
        ⟨0, "POST", "/batch", [("Content-Encoding", "gzip")], [], asciiBytes "hello"⟩).2.body_decompressed
        = some "hello"
    ∧ claimBodyDecode [("Content-Encoding", "gzip")] (asciiBytes "hello") = none
    ∧ some "hello" ≠ (none : Option String) := by
  refine ⟨?_, ?_, ?_, ?_⟩
  · decide
  · decide
  · decide
  · intro h
    exact Option.noConfusion h

/-- C3 as amended: the gzip branch is selected by an exact, case-sensitive
dict lookup of the key "content-encoding" with value "gzip"; on that
branch body_decompressed is the utf-8 decoding of the gzip decompression
of body_raw with failures giving an absent field, on every other call it
is the plain utf-8 decoding; the request is always recorded, never
raising. -/
theorem gzip_decoding_on_record (s : MockServerState) (i : ReqIn) :
    (s.record_request i).2.body_decompressed =
      (if dictGet i.headers "content-encoding" = some "gzip" then
        (gzipDecompress i.body_raw).bind utf8Decode
      else utf8Decode i.body_raw)
    ∧ (s.record_request i).1.requests = s.requests ++ [(s.record_request i).2] :=
  ⟨rfl, rfl⟩

/-- C7 counterexample: the claim lists "/batch" among the aliases exposed
for both methods, but CaptureEndpoint.routes registers "/batch" and
"/batch/" for POST only. -/
theorem batch_get_route_counterexample :
    "/batch" ∈ claimAliasPaths ∧ ("/batch", "GET") ∉ captureRoutes := by
  decide

/-- C7 as amended: every alias path is registered for POST; the four
non-batch aliases (with and without trailing slash) are also registered
for GET; "/batch" and "/batch/" are not registered for GET. All these
routes go through the single record-then-respond wrapper of
server.py _setup_routes, embedded as captureView. -/
theorem capture_route_table :
    (∀ p ∈ claimAliasPaths, (p, "POST") ∈ captureRoutes)
    ∧ (∀ p ∈ ["/i/v0/e", "/i/v0/e/", "/e", "/e/", "/capture", "/capture/",
        "/track", "/track/"], (p, "GET") ∈ captureRoutes)
    ∧ ("/batch", "GET") ∉ captureRoutes ∧ ("/batch/", "GET") ∉ captureRoutes := by
  decide

/-- C2 counterexample: the claim's "batch" rule requires the value under
"batch" to be an array, relegating other shapes to the data rule or the
singleton rule, but state.py line 87 tests only `"batch" in data`. On the
body with batch bound to the number 0 the claim prescribes the singleton
list holding the object, while the code stores the bare number 0. -/
theorem batch_shape_counterexample :
    (MockServerState.mkInitial.record_request
      ⟨0, "POST", "/batch", [], [], asciiBytes "\x7b\"batch\":0\x7d"⟩).2.body_decompressed
      = some "\x7b\"batch\":0\x7d"
    ∧ jsonLoads "\x7b\"batch\":0\x7d" = some (Json.obj [("batch", Json.num 0)])
    ∧ (MockServerState.mkInitial.record_request
      ⟨0, "POST", "/batch", [], [], asciiBytes "\x7b\"batch\":0\x7d"⟩).2.parsed_events
      = some (Json.num 0)
    ∧ claimShape (Json.obj [("batch", Json.num 0)])
      = some (Json.arr [Json.obj [("batch", Json.num 0)]])
    ∧ Json.num 0 ≠ Json.arr [Json.obj [("batch", Json.num 0)]] := by
  refine ⟨rfl, rfl, rfl, rfl, ?_⟩
  intro h
  exact Json.noConfusion h

/-- The code's shape detection agrees with the amended claim's wording. -/
theorem parseShape_eq_amendedShape (j : Json) : parseShape j = amendedShape j := by
  cases j <;> simp [parseShape, amendedShape]
  case obj kvs =>
    cases h : dictGet kvs "batch" <;> simp [h]

/-- The modelled json.loads rejects the empty string. -/
theorem jsonLoads_empty : jsonLoads "" = none := rfl

/-- C2 as amended: for every recorded request whose body_decompressed is
present and parses as JSON, parsed_events follows claim C2's rules except
that an object containing the key "batch" yields the value under "batch"
verbatim whatever its type, this taking precedence over the "data" rule. -/
theorem body_shape_detection (s : MockServerState) (i : ReqIn) (b : String) (j : Json)
    (h1 : (s.record_request i).2.body_decompressed = some b)
    (h2 : jsonLoads b = some j) :
    (s.record_request i).2.parsed_events = amendedShape j := by
  have hb : decodeBody i.headers i.body_raw = some b := h1
  show deriveEvents (decodeBody i.headers i.body_raw) = amendedShape j
  rw [hb]
  show (if b.length ≠ 0 then
      match jsonLoads b with
      | some data => parseShape data
      | none => none
    else none) = amendedShape j
  have hlen : b.length ≠ 0 := by
    intro h0
    have hdata : b.data = [] := List.length_eq_zero.mp h0
    have : b = "" := by
      cases b
      simp at hdata
      simp [hdata]
    rw [this, jsonLoads_empty] at h2
    exact Option.noConfusion h2
  rw [if_pos hlen, h2]
  exact parseShape_eq_amendedShape j

/-- Witness for C2: a plain JSON array body is parsed and stored
verbatim. -/
theorem body_shape_detection_witness :
    (MockServerState.mkInitial.record_request
      ⟨0, "POST", "/batch", [], [], asciiBytes "[1]"⟩).2.body_decompressed = some "[1]"
    ∧ jsonLoads "[1]" = some (Json.arr [Json.num 1])
    ∧ (MockServerState.mkInitial.record_request
      ⟨0, "POST", "/batch", [], [], asciiBytes "[1]"⟩).2.parsed_events
      = amendedShape (Json.arr [Json.num 1]) :=
  ⟨rfl, rfl,
    body_shape_detection MockServerState.mkInitial
      ⟨0, "POST", "/batch", [], [], asciiBytes "[1]"⟩ "[1]" (Json.arr [Json.num 1]) rfl rfl⟩

/-- C4. The capture wrapper records first, but a programmed non-200
response whose body is not valid JSON makes `json.loads` on server.py
line 50 raise instead of returning the programmed response verbatim: the
view errors out (Flask then answers with its own 500 page, not the
programmed status, headers and body), contradicting the never-propagate
rule the spec states. The store keeps the recorded hit with the dequeued
500 because record_request ran before the raise. -/
theorem malformed_programmed_body_raises :
    (captureView (MockServerState.mkInitial.set_response_queue malformedQueue)
      plainCaptureReq).2 = Except.error (PyErr.jsonDecodeError "oops")
    ∧ (captureView (MockServerState.mkInitial.set_response_queue malformedQueue)
      plainCaptureReq).1.requests.length = 1
    ∧ ((captureView (MockServerState.mkInitial.set_response_queue malformedQueue)
      plainCaptureReq).1.requests.getD 0 dummyRecorded).response_status = 500
    ∧ jsonLoads "oops" = none :=
  ⟨rfl, rfl, rfl, rfl⟩

/-- C5. The executor has no lookahead: a step that raises ends the test
even when the immediately following step is the assert_capture_fails
marker. With the marker following an assert_request_count step that raises
on the freshly reset (hence empty) store, run_test still propagates the
AssertionError as the failure outcome instead of swallowing it, for every
starting store state. -/
theorem marker_does_not_swallow_raise (s : MockServerState) :
    runTest
      [{ action := "assert_request_count", params := [("expected", Json.num 1)] },
       { action := "assert_capture_fails", params := [] }] s
      = Except.error (PyErr.assertionError "Expected 1 requests, got 0") := by
  show runSteps [] _ = _
  rfl

/-- The include recursion on the cyclic file never produces a value at any
depth: only the fuel bound of the model stops it. -/
theorem cyc_include_no_value :
    ∀ fuel, yconstruct cycFs fuel "d" (YSrc.incl "a.yaml")
      = Except.error LoadErr.recursionLimit
  | 0 => rfl
  | fuel + 1 => by
    show yconstruct cycFs fuel (pathParent (pathJoin "d" "a.yaml")) (YSrc.incl "a.yaml")
      = Except.error LoadErr.recursionLimit
    exact cyc_include_no_value fuel

/-- C8. The loader has no cycle detection: include_constructor simply
reopens the resolved path and loads it with the same loader class, so a
document that includes itself recurses unboundedly (the construction
yields no value at any finite depth; the Python original dies with
RecursionError instead of detecting the cycle by resolved path). -/
theorem include_cycle_never_terminates (fuel : Nat) :
    yamlLoad cycFs fuel "d/a.yaml" = Except.error LoadErr.recursionLimit := by
  show yconstruct cycFs fuel (pathParent "d/a.yaml") (YSrc.incl "a.yaml")
    = Except.error LoadErr.recursionLimit
  exact cyc_include_no_value fuel

/-- C9 counterexample: with sdk_types present as the empty list, the
claim says the test is skipped with no TestResult appended, but
contract_suite.py line 49 tests the list's truthiness, so the empty list
behaves like an absent key and the test runs, appending one result. -/
theorem empty_sdk_types_counterexample :
    claimSkip { name := "t", sdk_types := some [], steps := [] } "server" = true
    ∧ (suiteRun "s" emptyTagsCats "server" constRunOne).total = 1
    ∧ (claimSuiteRun "s" emptyTagsCats "server" constRunOne).total = 0
    ∧ (1 : Nat) ≠ 0 := by
  refine ⟨rfl, rfl, rfl, ?_⟩
  decide

/-- The code's skip test agrees with the amended wording. -/
theorem shouldSkip_eq_amendedSkip (td : TestDef) (tag : String) :
    shouldSkip td tag = amendedSkip td tag := by
  cases h : td.sdk_types with
  | none => simp [shouldSkip, amendedSkip, h]
  | some l => cases l <;> simp [shouldSkip, amendedSkip, h]

/-- C9 as amended: the runner appends one TestResult per executed test
and skips exactly the tests whose sdk_types key is present with a
non-empty list that lacks the active tag; a present empty list behaves
like an absent key, so the test runs. Skipped tests contribute to none of
the suite tallies, which are functions of the appended results. -/
theorem sdk_type_filtering (suite_name : String)
    (categories : List (String × List TestDef)) (sdk_type : String)
    (runOne : String → TestDef → TestResult) :
    suiteRun suite_name categories sdk_type runOne
      = amendedSuiteRun suite_name categories sdk_type runOne := by
  simp [suiteRun, amendedSuiteRun, shouldSkip_eq_amendedSkip]

/-- C10 counterexample: the claim promises success for every store state
whose first request has a non-empty parsed_events list, but when the
first parsed event is not a dict, `event.get("properties", {})` on
actions.py line 303 raises AttributeError before any exists/expected
check is considered, even with a parameter bag naming only the
property. -/
theorem non_dict_event_counterexample :
    numberEventRecorded.parsed_events = some (Json.arr [Json.num 5])
    ∧ assertEventPropertyExec [("property", Json.str "plan")] [numberEventRecorded]
      = Except.error (PyErr.attributeError "object has no attribute get") :=
  ⟨rfl, rfl⟩

/-- C10 as amended: for every store state in which the first recorded
request has a non-empty parsed_events list whose first event is a JSON
object, assert_event_property with a parameter bag that names a property
but carries neither "exists" nor "expected" performs no check on the
property and succeeds without raising, whether or not the property is
present. -/
theorem no_expectation_no_check (params : List (String × Json))
    (r : RecordedRequest) (rest : List RecordedRequest)
    (ekvs : List (String × Json)) (evs : List Json) (pn : Json)
    (h1 : r.parsed_events = some (Json.arr (Json.obj ekvs :: evs)))
    (h2 : dictGet params "property" = some pn)
    (h3 : dictGet params "exists" = none)
    (h4 : dictGet params "expected" = none) :
    assertEventPropertyExec params (r :: rest) = Except.ok () := by
  simp [assertEventPropertyExec, h1, h2, h3, h4, optTruthy, Json.truthy]

/-- Witness for C10: a concrete object event and a bag naming an absent
property with no expectation; the action succeeds. -/
theorem no_expectation_no_check_witness :
    (objectEventRecorded.parsed_events
      = some (Json.arr (Json.obj [("event", Json.str "login")] :: []))
    ∧ dictGet [("property", Json.str "plan")] "property" = some (Json.str "plan")
    ∧ dictGet [("property", Json.str "plan")] "exists" = (none : Option Json)
    ∧ dictGet [("property", Json.str "plan")] "expected" = (none : Option Json))
    ∧ assertEventPropertyExec [("property", Json.str "plan")] [objectEventRecorded]
      = Except.ok () :=
  ⟨⟨rfl, rfl, rfl, rfl⟩,
    no_expectation_no_check [("property", Json.str "plan")] objectEventRecorded []
      [("event", Json.str "login")] [] (Json.str "plan") rfl rfl rfl rfl⟩

end Harness
